/-
Verification of the "video from pictures" conversion pipeline
(python_version/src) against its natural-language specification.

Shallow embedding conventions:
- Python floats (timestamps, durations, rates) are modelled as rationals (ℚ).
- `time.time()` calls are modelled by explicit `now : ℚ` arguments; where a
  method calls `time.time()` several times we pass the same instant, which is
  irrelevant to every property proved here.
- Python exceptions raised by a modelled operation are represented by
  `Option`/explicit outcome data.
- Progress callbacks (Python callables) are modelled as functions returning
  `Option String`: `some e` models the callback raising an exception with
  message `e`, `none` a normal return.
- Strings are compared exactly as Python compares them (code-point
  lexicographic); lowercasing is modelled with `Char.toLower`, which agrees
  with Python `str.lower` on ASCII.
-/
import Mathlib

/-! ## ProgressTracker (src/progress_tracker.py) -/

/-- Embeds dataclass `StepTiming` of progress_tracker.py. -/
structure StepTiming where
  step_number : ℕ
  message : String
  start_time : ℚ
  end_time : ℚ
  duration : ℚ
  deriving Repr, DecidableEq

/-- Embeds dataclass `ErrorInfo` of progress_tracker.py. -/
structure TrackerErrorInfo where
  message : String
  type : String
  timestamp : ℚ
  step_number : Option ℕ
  deriving Repr, DecidableEq

/-- Embeds dataclass `WarningInfo` of progress_tracker.py. -/
structure TrackerWarningInfo where
  message : String
  timestamp : ℚ
  step_number : Option ℕ
  deriving Repr, DecidableEq

/-- A registered progress callback: takes (percentage, message, eta) and
returns `some e` when the Python callable raises an exception rendered as
`e`, or `none` on normal return. -/
def ProgressCallback : Type := ℚ → String → Option ℚ → Option String

/-- Embeds the mutable state of class `ProgressTracker`.  Performance
metrics (`Dict[str, Any]`) are modelled as an association list of
string-valued entries. -/
structure Tracker where
  operation_id : String
  total_steps : ℕ
  current_step : ℕ
  operation_name : String
  start_time : Option ℚ
  end_time : Option ℚ
  last_update_time : Option ℚ
  step_start_time : Option ℚ
  status : String
  step_timings : List StepTiming
  performance_metrics : List (String × String)
  errors : List TrackerErrorInfo
  warnings : List TrackerWarningInfo
  callbacks : List ProgressCallback
  current_message : String

/-- Embeds `ProgressTracker.reset` composed with `__init__(operation_id)`:
the freshly constructed tracker. -/
def mkTracker (operation_id : String) : Tracker where
  operation_id := operation_id
  total_steps := 0
  current_step := 0
  operation_name := ""
  start_time := none
  end_time := none
  last_update_time := none
  step_start_time := none
  status := "initialized"
  step_timings := []
  performance_metrics := []
  errors := []
  warnings := []
  callbacks := []
  current_message := ""

/-- Embeds `ProgressTracker.initialize(total_steps, operation_name)`. -/
def initOp (total_steps : ℕ) (operation_name : String) (t : Tracker) : Tracker :=
  { t with total_steps := total_steps, operation_name := operation_name,
           current_step := 0, status := "initialized" }

/-- Embeds `ProgressTracker.start_timing`. -/
def startTiming (now : ℚ) (t : Tracker) : Tracker :=
  { t with start_time := some now, status := "running", step_start_time := some now }

/-- Embeds `ProgressTracker.add_error(message, error_type)`. -/
def addError (now : ℚ) (message error_type : String) (t : Tracker) : Tracker :=
  { t with errors := t.errors ++
      [⟨message, error_type, now, if t.current_step > 0 then some t.current_step else none⟩] }

/-- Embeds `ProgressTracker.add_warning(message)`. -/
def addWarning (now : ℚ) (message : String) (t : Tracker) : Tracker :=
  { t with warnings := t.warnings ++
      [⟨message, now, if t.current_step > 0 then some t.current_step else none⟩] }

/-- Embeds `ProgressTracker.get_estimated_time_remaining`.  `now` models
the `time.time()` fallback used when no update has happened yet. -/
def getEstimatedTimeRemaining (t : Tracker) (now : ℚ) : Option ℚ :=
  match t.start_time with
  | none => none
  | some s =>
    if t.current_step = 0 ∨ t.total_steps = 0 ∨ t.current_step ≥ t.total_steps then
      none
    else
      let current_time : ℚ := t.last_update_time.getD now
      let elapsed_time : ℚ := current_time - s
      let progress_ratio : ℚ := (t.current_step : ℚ) / (t.total_steps : ℚ)
      if progress_ratio ≤ 0 then none
      else
        let estimated_total_time := elapsed_time / progress_ratio
        some (max 0 (estimated_total_time - elapsed_time))

/-- Embeds `ProgressTracker.get_current_progress`. -/
def getCurrentProgress (t : Tracker) : ℚ :=
  if t.total_steps = 0 then 0
  else ((t.current_step : ℚ) / (t.total_steps : ℚ)) * 100

/-- Embeds the callback notification loop at the end of
`ProgressTracker.update_progress`: each registered callback is invoked in
order; a raising callback is recorded through `add_error` and never
propagated. -/
def notifyCallbacks (now percentage : ℚ) (message : String) (eta : Option ℚ)
    (cbs : List ProgressCallback) (t : Tracker) : Tracker :=
  cbs.foldl (fun acc cb =>
    match cb percentage message eta with
    | none => acc
    | some e => addError now ("Progress callback error: " ++ e) "CallbackError" acc) t

/-- Embeds `ProgressTracker.update_progress(step, message)`. -/
def updateProgress (now : ℚ) (step : ℕ) (message : String) (t : Tracker) : Tracker :=
  -- step_start_time is initialized to `now` when unset
  let sst := t.step_start_time.getD now
  -- when a step is already underway, close its timing window
  let timing : StepTiming := ⟨t.current_step, t.current_message, sst, now, now - sst⟩
  let t1 :=
    if t.current_step > 0 then
      { t with step_timings := t.step_timings ++ [timing], step_start_time := some now }
    else
      { t with step_start_time := some sst }
  let t2 := { t1 with current_step := step, current_message := message,
                      last_update_time := some now }
  let percentage : ℚ :=
    if t2.total_steps > 0 then ((step : ℚ) / (t2.total_steps : ℚ)) * 100 else 0
  let eta := getEstimatedTimeRemaining t2 now
  notifyCallbacks now percentage message eta t2.callbacks t2

/-- Embeds `ProgressTracker.complete_operation`. -/
def completeOperation (now : ℚ) (t : Tracker) : Tracker :=
  let t1 :=
    match t.step_start_time with
    | some sst =>
      if t.current_step > 0 then
        let timing : StepTiming := ⟨t.current_step, t.current_message, sst, now, now - sst⟩
        { t with step_timings := t.step_timings ++ [timing] }
      else t
    | none => t
  { t1 with end_time := some now, status := "completed" }

/-- Embeds `ProgressTracker.fail_operation(reason)`. -/
def failOperation (now : ℚ) (reason : String) (t : Tracker) : Tracker :=
  addError now ("Operation failed: " ++ reason) "OperationFailure"
    { t with end_time := some now, status := "failed" }

/-! ### State persistence (save_state / load_state) -/

/-- Embeds the structured document written by `ProgressTracker.save_state`
(the JSON object, minus textual encoding). -/
structure SavedState where
  operation_id : String
  total_steps : ℕ
  current_step : ℕ
  operation_name : String
  start_time : Option ℚ
  end_time : Option ℚ
  last_update_time : Option ℚ
  status : String
  current_message : String
  step_timings : List StepTiming
  performance_metrics : List (String × String)
  errors : List TrackerErrorInfo
  warnings : List TrackerWarningInfo
  saved_at : ℚ
  deriving Repr, DecidableEq

/-- Embeds `ProgressTracker.save_state` (`saved_at` is its `time.time()`). -/
def saveState (t : Tracker) (saved_at : ℚ) : SavedState where
  operation_id := t.operation_id
  total_steps := t.total_steps
  current_step := t.current_step
  operation_name := t.operation_name
  start_time := t.start_time
  end_time := t.end_time
  last_update_time := t.last_update_time
  status := t.status
  current_message := t.current_message
  step_timings := t.step_timings
  performance_metrics := t.performance_metrics
  errors := t.errors
  warnings := t.warnings
  saved_at := saved_at

/-- Embeds `ProgressTracker.load_state` applied to tracker `t`: every
persisted field is assigned from the document and `callbacks` is cleared;
`step_start_time` is not touched by `load_state`. -/
def loadState (s : SavedState) (t : Tracker) : Tracker :=
  { t with
    operation_id := s.operation_id
    total_steps := s.total_steps
    current_step := s.current_step
    operation_name := s.operation_name
    start_time := s.start_time
    end_time := s.end_time
    last_update_time := s.last_update_time
    status := s.status
    current_message := s.current_message
    step_timings := s.step_timings
    performance_metrics := s.performance_metrics
    errors := s.errors
    warnings := s.warnings
    callbacks := [] }

/-! ## ImageLoader (src/image_loader.py) -/

/-- A filesystem path as the sorting code sees it: directory part, final
component (`Path.name`), and the modification timestamp `stat().st_mtime`
(`none` models `stat` raising `OSError`). -/
structure PyPath where
  dir : String
  name : String
  mtime : Option ℚ
  deriving Repr, DecidableEq

/-- One element of the natural-sort key produced by `natural_key`: a digit
run converted with `int`, or a non-digit run kept as text.  Text runs are
kept as character lists, ordered lexicographically by code point — exactly
Python string comparison.  The order on elements is the lexicographic sum
order; an integer element is never compared with a text element because
keys alternate text/digit/text/... starting with text, so equal positions
always carry the same constructor (Python would raise `TypeError`
otherwise, which never happens for these keys). -/
abbrev NatKeyElem : Type := ℕ ⊕ₗ (List Char)

abbrev NatKey : Type := List NatKeyElem

/-- Embeds `int(part)` on a digit run. -/
def digitsToNat (ds : List Char) : ℕ :=
  ds.foldl (fun n c => 10 * n + (c.toNat - 48)) 0

/-- Embeds the shape of `re.split(r"(\d+)", s)`: returns the leading
non-digit run and the list of (digit run, following non-digit run) pairs;
all non-digit runs may be empty, digit runs are maximal and non-empty. -/
def splitTok : List Char → List Char × List (List Char × List Char)
  | [] => ([], [])
  | c :: cs =>
    let r := splitTok cs
    if c.isDigit then
      match r with
      | ([], (d, t2) :: gs) => ([], (c :: d, t2) :: gs)
      | (t, gs) => ([], ([c], t) :: gs)
    else
      (c :: r.1, r.2)

/-- Embeds `natural_key` of `ImageLoader.sort_files_natural`: lowercase the
filename, split into alternating digit/non-digit runs, digit runs as
integers and other runs as text. -/
def naturalKey (name : String) : NatKey :=
  let lowered := name.toList.map Char.toLower
  let (t0, gs) := splitTok lowered
  toLex (Sum.inr t0) ::
    gs.flatMap (fun g => [toLex (Sum.inl (digitsToNat g.1)), toLex (Sum.inr g.2)])

/-- Comparison used by `sorted(file_paths, key=natural_key)`: keys compared
tuple-wise (list-lexicographically). -/
def naturalKeyLE (p q : PyPath) : Prop :=
  naturalKey p.name ≤ naturalKey q.name

instance : DecidableRel naturalKeyLE :=
  fun p q => inferInstanceAs (Decidable (naturalKey p.name ≤ naturalKey q.name))

instance : IsTotal PyPath naturalKeyLE :=
  ⟨fun p q => le_total (naturalKey p.name) (naturalKey q.name)⟩

instance : IsTrans PyPath naturalKeyLE :=
  ⟨fun _ _ _ h h' => le_trans (α := NatKey) h h'⟩

/-- Embeds `ImageLoader.sort_files_natural`.  Python `sorted` is the stable
sort by the key; it is modelled with the stable `List.insertionSort`, which
produces the same list as any stable sort for the same total preorder. -/
def sortFilesNatural (file_paths : List PyPath) : List PyPath :=
  file_paths.insertionSort naturalKeyLE

/-- Ascending `st_mtime` comparison (`key=lambda p: p.stat().st_mtime`);
only ever used when every `mtime` is present. -/
def mtimeLE (p q : PyPath) : Prop := p.mtime.getD 0 ≤ q.mtime.getD 0

instance : DecidableRel mtimeLE :=
  fun p q => inferInstanceAs (Decidable (p.mtime.getD 0 ≤ q.mtime.getD 0))

instance : IsTotal PyPath mtimeLE := ⟨fun p q => le_total (p.mtime.getD 0) (q.mtime.getD 0)⟩

instance : IsTrans PyPath mtimeLE := ⟨fun _ _ _ h h' => le_trans (α := ℚ) h h'⟩

/-- Raw (case-sensitive) filename comparison (`key=lambda p: p.name`);
Python compares strings by code points, here as character lists. -/
def nameLE (p q : PyPath) : Prop := p.name.toList ≤ q.name.toList

instance : DecidableRel nameLE :=
  fun p q => inferInstanceAs (Decidable (p.name.toList ≤ q.name.toList))

instance : IsTotal PyPath nameLE := ⟨fun p q => le_total p.name.toList q.name.toList⟩

instance : IsTrans PyPath nameLE :=
  ⟨fun _ _ _ h h' => le_trans (α := List Char) h h'⟩

/-- Embeds `ImageLoader.sort_files_by_date`: when every `stat` succeeds,
sort ascending by `st_mtime`; if any `stat` raises (some `mtime` is `none`),
the whole `sorted` call raises, the handler logs a warning and sorts by the
raw (case-sensitive) filename instead. -/
def sortFilesByDate (file_paths : List PyPath) : List PyPath :=
  if file_paths.all (fun p => p.mtime.isSome) then
    file_paths.insertionSort mtimeLE
  else
    file_paths.insertionSort nameLE

/-- True exactly when `sort_files_by_date` takes its fallback branch (and
logs the "falling back to name sorting" warning). -/
def dateSortFellBack (file_paths : List PyPath) : Bool :=
  !(file_paths.all (fun p => p.mtime.isSome))

/-- Case-insensitive filename comparison, following the spec words for the
claimed fallback ordering (not used by the date-sort code). -/
def nameCaseInsensLE (p q : PyPath) : Prop :=
  p.name.toList.map Char.toLower ≤ q.name.toList.map Char.toLower

instance : DecidableRel nameCaseInsensLE :=
  fun p q => inferInstanceAs
    (Decidable (p.name.toList.map Char.toLower ≤ q.name.toList.map Char.toLower))

/-- Follows the spec words, for comparison with `sortFilesByDate`: the
claimed fallback order, a case-insensitive lexical compare on filename. -/
def specFallbackAlphabeticalCI (file_paths : List PyPath) : List PyPath :=
  file_paths.insertionSort nameCaseInsensLE

/-! ## VideoEncoder (src/video_encoder.py) -/

/-- Embeds `VideoEncoder.SUPPORTED_FORMATS`. -/
def SUPPORTED_FORMATS : List String := [".mp4", ".avi", ".mov", ".mkv"]

/-- One entry of `VideoEncoder.QUALITY_PRESETS`. -/
structure QualitySettings where
  bitrate : String
  codec : String
  deriving Repr, DecidableEq

/-- Embeds the `VideoEncoder.QUALITY_PRESETS` dict as a lookup. -/
def QUALITY_PRESETS (quality : String) : Option QualitySettings :=
  if quality = "low" then some ⟨"2000k", "libx264"⟩
  else if quality = "medium" then some ⟨"5000k", "libx264"⟩
  else if quality = "high" then some ⟨"8000k", "libx264"⟩
  else none

/-- Embeds `VideoEncoder.get_quality_settings`:
`QUALITY_PRESETS.get(quality, QUALITY_PRESETS["medium"])`. -/
def getQualitySettings (quality : String) : QualitySettings :=
  (QUALITY_PRESETS quality).getD ⟨"5000k", "libx264"⟩

/-- Embeds `pathlib.PurePath.suffix` on a final path component: the text
from the last dot on, unless that dot is the first or last character. -/
def pySuffix (name : String) : String :=
  let cs := name.toList
  match cs.reverse.findIdx? (fun x => x = '.') with
  | none => ""
  | some j =>
    let i := cs.length - 1 - j
    if 0 < i ∧ i < cs.length - 1 then String.mk (cs.drop i) else ""

/-- Embeds `str(path)`. -/
def pathStr (p : PyPath) : String :=
  if p.dir = "" then p.name else p.dir ++ "/" ++ p.name

/-- Embeds `VideoEncoder.is_supported_output_format(str(output_path))`. -/
def isSupportedOutputFormat (p : PyPath) : Bool :=
  let s := pathStr p
  let ext : List Char :=
    match s.toList with
    | '.' :: _ => s.toList.map Char.toLower
    | _ => (pySuffix p.name).toList.map Char.toLower
  (SUPPORTED_FORMATS.map String.toList).contains ext

/-- The outcome of the fail-fast validation sequence at the top of
`VideoEncoder.create_video` (lines 118-153): availability check, empty
input check, output format check — in that source order.
`proceedsPastChecks` marks the point where the code first touches the
filesystem (`output_path.parent.mkdir(...)`) and goes on to encode. -/
inductive CreateVideoOutcome where
  | failNoMoviepy
  | failNoImages
  | failUnsupportedFormat (sfx : String)
  | proceedsPastChecks
  deriving Repr, DecidableEq

/-- Embeds the validation sequence of `VideoEncoder.create_video` up to the
`mkdir` call; everything after `mkdir` is outside this claim. -/
def createVideoCheck (moviepyAvailable : Bool) (imageFiles : List PyPath)
    (outputPath : PyPath) : CreateVideoOutcome :=
  if !moviepyAvailable then .failNoMoviepy
  else if imageFiles.isEmpty then .failNoImages
  else if !(isSupportedOutputFormat outputPath) then
    .failUnsupportedFormat (pySuffix outputPath.name)
  else .proceedsPastChecks

/-- The `error` field of the result dict returned on each early failure
(`none` when validation passes and encoding proceeds). -/
def outcomeError : CreateVideoOutcome → Option String
  | .failNoMoviepy => some ("MoviePy is not available. Please install it: pip install moviepy\n" ++
      "Note: This application supports both MoviePy 1.x and 2.x versions.")
  | .failNoImages => some "No images provided for video creation"
  | .failUnsupportedFormat sfx => some ("Unsupported output format: " ++ sfx)
  | .proceedsPastChecks => none

/-- Whether `create_video` reaches its `mkdir` call (the first and only
filesystem effect before encoding starts). -/
def mkdirPerformed : CreateVideoOutcome → Bool
  | .proceedsPastChecks => true
  | _ => false

/-- Embeds `int(bitrate_str.replace("k", ""))`: drop every `k`, then read
the digits (the preset strings always consist of digits followed by `k`, so
the `except` branch of `estimate_output_size` is unreachable; a
non-numeric remainder, on which `int` would raise, is mapped to 0). -/
def bitrateToKbps (s : String) : ℕ :=
  let ds := s.toList.filter (fun c => c ≠ 'k')
  if ds ≠ [] ∧ ds.all Char.isDigit then digitsToNat ds else 0

/-- The result dict of `VideoEncoder.estimate_output_size` on a non-empty
input (rationals in place of floats; the cosmetic `round(mb, 2)` and
`int(bytes)` truncations are applied by the caller-facing dict but do not
change which bitrate or quality is reported and are not modelled). -/
structure SizeEstimate where
  estimated_size_mb : ℚ
  estimated_size_bytes : ℚ
  duration_seconds : ℚ
  fps : ℕ
  total_frames : ℕ
  quality : String
  bitrate_kbps : ℕ
  deriving Repr, DecidableEq

/-- Result of `estimate_output_size`: the empty-input short dict, or the
full estimate. -/
inductive SizeEstimateResult where
  | empty
  | ok (e : SizeEstimate)
  deriving Repr, DecidableEq

/-- Embeds `VideoEncoder.estimate_output_size`. -/
def estimateOutputSize (imageFiles : List PyPath) (fps : ℕ) (quality : String) :
    SizeEstimateResult :=
  if imageFiles.isEmpty then .empty
  else
    let duration : ℚ := (imageFiles.length : ℚ) / (fps : ℚ)
    let qs := getQualitySettings quality
    let kbps := bitrateToKbps qs.bitrate
    let bytes : ℚ := ((kbps : ℚ) * 1000 * duration) / 8
    .ok ⟨bytes / (1024 * 1024), bytes, duration, fps, imageFiles.length, quality, kbps⟩

/-- Embeds `VideoEncoder.get_supported_codecs`. -/
def getSupportedCodecs : List String :=
  ["libx264", "libx265", "mpeg4", "libvpx", "libvpx-vp9"]

/-- The dict returned by `VideoEncoder.validate_settings`. -/
structure ValidationResult where
  valid : Bool
  errors : List String
  warnings : List String
  deriving Repr, DecidableEq

/-- Embeds `VideoEncoder.validate_settings(fps, quality, codec)`.  The
Python messages quote the preset name with apostrophes; the quotes are
elided here, the message content is otherwise kept. -/
def validateSettings (fps : ℤ) (quality : String) (codec : String) : ValidationResult :=
  let fpsErrors : List String :=
    if fps < 1 ∨ fps > 120 then ["FPS must be between 1 and 120, got " ++ toString fps]
    else []
  let fpsWarnings : List String :=
    if fps < 1 ∨ fps > 120 then []
    else if fps < 5 then ["Very low FPS (" ++ toString fps ++ ") may result in choppy video"]
    else if fps > 60 then ["High FPS (" ++ toString fps ++ ") may result in large file sizes"]
    else []
  let qualityErrors : List String :=
    if (QUALITY_PRESETS quality).isNone then
      ["Unknown quality preset " ++ quality ++ ". Available: [low, medium, high]"]
    else []
  let codecWarnings : List String :=
    if !(getSupportedCodecs.contains codec || codec = "auto") then
      ["Codec " ++ codec ++ " may not be supported. Recommended: " ++
        "[libx264, libx265, mpeg4, libvpx, libvpx-vp9]"]
    else []
  let errors := fpsErrors ++ qualityErrors
  let warnings := fpsWarnings ++ codecWarnings
  ⟨errors.isEmpty, errors, warnings⟩

/-! ## ErrorLogger (src/error_logger.py) -/

/-- The fields of the logger dataclass `ErrorInfo` that
`_generate_recommendations` reads. -/
structure LoggerErrorInfo where
  error_type : String
  message : String
  deriving Repr, DecidableEq

/-- `needle.isSublistAt hay`: Python `needle in hay` on character lists. -/
def charsContain (needle : List Char) : List Char → Bool
  | [] => needle.isEmpty
  | c :: t => needle.isPrefixOf (c :: t) || charsContain needle t

/-- Embeds Python `needle in msg.lower()` for an all-lowercase `needle`. -/
def msgContains (msg needle : String) : Bool :=
  charsContain needle.toList (msg.toList.map Char.toLower)

/-- Count of errors whose message mentions "file" or "not found"
(the `file_errors` counter of `_generate_recommendations`). -/
def countFileRelated (errs : List LoggerErrorInfo) : ℕ :=
  errs.countP (fun e => msgContains e.message "file" || msgContains e.message "not found")

/-- Count of errors whose message mentions `needle` (the
`permission_errors` / `space_errors` counters). -/
def countMsgWith (needle : String) (errs : List LoggerErrorInfo) : ℕ :=
  errs.countP (fun e => msgContains e.message needle)

/-- `error_counts.get(ty, 0)` of `_generate_recommendations`. -/
def countOfType (ty : String) (errs : List LoggerErrorInfo) : ℕ :=
  errs.countP (fun e => e.error_type = ty)

/-- `len(error_counts)`: the number of distinct error types seen. -/
def distinctTypeCount (errs : List LoggerErrorInfo) : ℕ :=
  (errs.map (fun e => e.error_type)).dedup.length

def recFileAccess : String :=
  "Multiple file access issues detected. Verify input folder path and file permissions."

def recPermission : String :=
  "Permission errors detected. Try running as administrator or change output location."

def recDiskSpace : String :=
  "Disk space issues detected. Free up space or use a different output location."

def recImageIntegrity : String :=
  "Multiple image processing errors. Check image file integrity and formats."

def recVideoEncoding : String :=
  "Video encoding issues detected. Verify codec availability and system resources."

def recRestart : String :=
  "Multiple error types detected. Consider restarting the application."

/-- Embeds `ErrorLogger._generate_recommendations(errors)`: the guarded
appends, in source order. -/
def genRecommendations (errs : List LoggerErrorInfo) : List String :=
  if errs.isEmpty then []
  else
    (if countFileRelated errs > 5 then [recFileAccess] else []) ++
    (if countMsgWith "permission" errs > 0 then [recPermission] else []) ++
    (if countMsgWith "space" errs > 0 then [recDiskSpace] else []) ++
    (if countOfType "ImageProcessingError" errs > 3 then [recImageIntegrity] else []) ++
    (if countOfType "VideoEncodingError" errs > 0 then [recVideoEncoding] else []) ++
    (if distinctTypeCount errs > 5 then [recRestart] else [])

/-! ## VideoProcessingWorker (src/video_processing_worker.py)

`_process_video` is modelled as a function of an environment describing the
outside world: at which cooperative checkpoint (if any) the `should_stop`
flag is first observed true, the valid files returned by step 1, whether
step 1 raises, and whether `_create_video` reports success.  The internals
of the collaborating components (image loading, encoding, the separate
`ErrorLogger` instance, and the `progress_updated` GUI signal) are
abstracted; the `processing_finished` emissions and the owned
`ProgressTracker` are modelled exactly. -/

structure WorkerEnv where
  /-- First of the four `if self.should_stop` checkpoints (numbered 1-4,
  checked just before `update_progress(k, ...)`) at which the flag is
  observed true; `none` when `stop()` is never called. -/
  stopAt : Option ℕ
  /-- The `valid_files` list produced by `_load_and_validate_images`. -/
  validFiles : List PyPath
  /-- `some msg`: step 1 raises an exception rendered as `msg`, reaching
  the `except` clause of `_process_video`. -/
  loadRaises : Option String
  /-- Whether `_create_video` returns `True`. -/
  createSuccess : Bool
  /-- `str(output_path)` as derived by `_generate_output_path`. -/
  outputPathStr : String
  /-- The successive `time.time()` readings (indexed by call site). -/
  clock : ℕ → ℚ

/-- The `should_stop` flag as observed at checkpoint `j`: once set it stays
set, so it reads true at every checkpoint from `stopAt` on. -/
def envShouldStop (env : WorkerEnv) (j : ℕ) : Bool :=
  match env.stopAt with
  | some k => decide (k ≤ j)
  | none => false

/-- Observable outcome of one `_process_video` run: the final state of the
worker-owned tracker, and every `processing_finished.emit(success, message,
report)` in order (the report argument is omitted: it is `{}` on every
failure path and the detailed report on the success path). -/
structure WorkerRun where
  tracker : Tracker
  finished : List (Bool × String)

/-- Embeds `VideoProcessingWorker._process_video` (lines 76-138) together
with the effect of a concurrent `stop()` call: `stop()` sets the flag and
adds the "Processing stopped by user request" tracker warning; the warning
is modelled as applied before processing starts (only its presence matters,
not its list position).  The `finally` clause always runs
`complete_operation`. -/
def processVideo (env : WorkerEnv) (t0 : Tracker) : WorkerRun :=
  let tInit :=
    match env.stopAt with
    | some _ => addWarning (env.clock 100) "Processing stopped by user request" t0
    | none => t0
  let t := startTiming (env.clock 0) (initOp 5 "video_creation" tInit)
  if envShouldStop env 1 then
    ⟨completeOperation (env.clock 9) t, []⟩
  else
    let t := updateProgress (env.clock 1) 1 "Loading and validating images" t
    match env.loadRaises with
    | some msg =>
      ⟨completeOperation (env.clock 9) t, [(false, "Processing failed: " ++ msg)]⟩
    | none =>
      if env.validFiles.isEmpty then
        ⟨completeOperation (env.clock 9) t,
         [(false, "No valid image files found in the selected folder")]⟩
      else if envShouldStop env 2 then
        ⟨completeOperation (env.clock 9) t, []⟩
      else
        let t := updateProgress (env.clock 2) 2 "Sorting images" t
        if envShouldStop env 3 then
          ⟨completeOperation (env.clock 9) t, []⟩
        else
          let t := updateProgress (env.clock 3) 3 "Preparing output settings" t
          if envShouldStop env 4 then
            ⟨completeOperation (env.clock 9) t, []⟩
          else
            let t := updateProgress (env.clock 4) 4 "Creating video" t
            if env.createSuccess then
              let t := updateProgress (env.clock 5) 5 "Video creation completed" t
              let t := completeOperation (env.clock 6) t
              ⟨completeOperation (env.clock 9) t,
               [(true, "Video saved to: " ++ env.outputPathStr)]⟩
            else
              let t := failOperation (env.clock 7) "Video creation failed" t
              ⟨completeOperation (env.clock 9) t, [(false, "Video creation failed")]⟩


/-! ## Concrete instances used by individual claims -/

/-- A tracker that has gone `initialize(5, ...)`, `start_timing`, then
`fail_operation`: its status is the terminal value "failed". -/
def c1FailedTracker : Tracker :=
  failOperation 1 "Video creation failed"
    (startTiming 0 (initOp 5 "video_creation" (mkTracker "op1")))

/-- Environment of a run in which the user cancels after stage 1: the
`should_stop` flag is first observed at checkpoint 2. -/
def c2StopEnv : WorkerEnv :=
  ⟨some 2, [⟨"", "img1.jpg", some 0⟩], none, true, "folder_video.mp4", fun i => (i : ℚ)⟩

/-- A mid-run tracker: started at 0, last update at 6, 2 of 5 steps done. -/
def c3MidTracker : Tracker :=
  { mkTracker "op3" with
      start_time := some 0
      last_update_time := some 6
      current_step := 2
      total_steps := 5 }

/-- The natural-sort example input from the spec. -/
def c4ExampleInput : List PyPath :=
  [⟨"", "image10.jpg", some 0⟩, ⟨"", "image2.jpg", some 0⟩, ⟨"", "image1.jpg", some 0⟩]

/-- An output path with the unsupported extension `.txt`. -/
def c5TxtPath : PyPath := ⟨"out", "video.txt", none⟩

/-- An output path with the supported extension `.mp4`. -/
def c5Mp4Path : PyPath := ⟨"out", "video.mp4", none⟩

/-- A one-frame input list. -/
def c5Frames : List PyPath := [⟨"in", "a.jpg", some 0⟩]

/-- A file whose `stat` raises (no readable mtime), named with an upper
case letter. -/
def c6FileB : PyPath := ⟨"", "B.jpg", none⟩

/-- A file with a readable mtime, named with a lower case letter. -/
def c6FileA : PyPath := ⟨"", "a.jpg", some 1⟩

/-- Five recorded errors whose messages are file-access related. -/
def c8FiveFileErrors : List LoggerErrorInfo :=
  List.replicate 5 ⟨"ApplicationError", "file missing"⟩

/-- Three recorded image-processing errors. -/
def c8ThreeImageErrors : List LoggerErrorInfo :=
  List.replicate 3 ⟨"ImageProcessingError", "bad pixel data"⟩

/-! ## Helper lemmas -/

theorem addError_status (now : ℚ) (m ty : String) (t : Tracker) :
    (addError now m ty t).status = t.status := rfl

theorem notifyCallbacks_fields (now pct : ℚ) (msg : String) (eta : Option ℚ)
    (cbs : List ProgressCallback) (t : Tracker) :
    (notifyCallbacks now pct msg eta cbs t).status = t.status ∧
    (notifyCallbacks now pct msg eta cbs t).current_step = t.current_step ∧
    (notifyCallbacks now pct msg eta cbs t).warnings = t.warnings := by
  induction cbs generalizing t with
  | nil => exact ⟨rfl, rfl, rfl⟩
  | cons cb cbs ih =>
    have step :
        notifyCallbacks now pct msg eta (cb :: cbs) t
          = notifyCallbacks now pct msg eta cbs
              (match cb pct msg eta with
               | none => t
               | some e => addError now ("Progress callback error: " ++ e) "CallbackError" t) :=
      rfl
    rw [step]
    cases cb pct msg eta with
    | none => exact ih t
    | some e => exact ih _

theorem notifyCallbacks_status (now pct : ℚ) (msg : String) (eta : Option ℚ)
    (cbs : List ProgressCallback) (t : Tracker) :
    (notifyCallbacks now pct msg eta cbs t).status = t.status :=
  (notifyCallbacks_fields now pct msg eta cbs t).1

theorem notifyCallbacks_current_step (now pct : ℚ) (msg : String) (eta : Option ℚ)
    (cbs : List ProgressCallback) (t : Tracker) :
    (notifyCallbacks now pct msg eta cbs t).current_step = t.current_step :=
  (notifyCallbacks_fields now pct msg eta cbs t).2.1

theorem notifyCallbacks_warnings (now pct : ℚ) (msg : String) (eta : Option ℚ)
    (cbs : List ProgressCallback) (t : Tracker) :
    (notifyCallbacks now pct msg eta cbs t).warnings = t.warnings :=
  (notifyCallbacks_fields now pct msg eta cbs t).2.2

theorem updateProgress_status (now : ℚ) (step : ℕ) (msg : String) (t : Tracker) :
    (updateProgress now step msg t).status = t.status := by
  unfold updateProgress
  rw [notifyCallbacks_status]
  split <;> rfl

theorem updateProgress_current_step (now : ℚ) (step : ℕ) (msg : String) (t : Tracker) :
    (updateProgress now step msg t).current_step = step := by
  unfold updateProgress
  rw [notifyCallbacks_current_step]

theorem updateProgress_warnings (now : ℚ) (step : ℕ) (msg : String) (t : Tracker) :
    (updateProgress now step msg t).warnings = t.warnings := by
  unfold updateProgress
  rw [notifyCallbacks_warnings]
  split <;> rfl

theorem completeOperation_status (now : ℚ) (t : Tracker) :
    (completeOperation now t).status = "completed" := rfl

theorem completeOperation_current_step (now : ℚ) (t : Tracker) :
    (completeOperation now t).current_step = t.current_step := by
  unfold completeOperation
  split
  · split <;> rfl
  · rfl

theorem completeOperation_warnings (now : ℚ) (t : Tracker) :
    (completeOperation now t).warnings = t.warnings := by
  unfold completeOperation
  split
  · split <;> rfl
  · rfl

theorem addWarning_warnings (now : ℚ) (msg : String) (t : Tracker) :
    (addWarning now msg t).warnings
      = t.warnings ++ [⟨msg, now, if t.current_step > 0 then some t.current_step else none⟩] :=
  rfl

/-! ## Claim C1 -/

/-- C1, counterexample: after `fail_operation` has set the status to
"failed", a later `complete_operation` call does NOT leave the status
"failed" — it overwrites it with "completed". -/
theorem c1_complete_after_fail_counterexample :
    c1FailedTracker.status = "failed" ∧
    (completeOperation 2 c1FailedTracker).status ≠ "failed" :=
  ⟨rfl, by decide⟩

/-- C1 (amended): terminal statuses are not sticky.  `complete_operation`
always sets the status to "completed" and `fail_operation` always sets it
to "failed", whatever the previous status was — in particular a tracker
whose status is the terminal value "failed" is moved to "completed" by a
later `complete_operation` call. -/
theorem c1_terminal_status_not_sticky (t : Tracker) (now : ℚ) (reason : String) :
    (completeOperation now t).status = "completed" ∧
    (failOperation now reason t).status = "failed" :=
  ⟨completeOperation_status now t, rfl⟩

/-! ## Claim C2 -/

/-- C2, counterexample: with the cancellation flag set before stage 2, the
run emits NO completion notification at all (the claim asserts exactly
one), and the progress state ends with status "completed", not "failed":
the early `return` jumps over every `processing_finished.emit`, and the
`finally` clause then runs `complete_operation`. -/
theorem c2_cancel_counterexample :
    (processVideo c2StopEnv (mkTracker "op2")).finished = [] ∧
    (processVideo c2StopEnv (mkTracker "op2")).tracker.status = "completed" :=
  ⟨rfl, rfl⟩

/-- C2 (amended): when the cancellation flag is set before stage boundary
`k` (1 ≤ k ≤ 4) and no earlier stage fails, the pipeline does stop
advancing (the tracker never moves past step `k-1`) and the "stopped by
user" marker is recorded — but only as a tracker warning: the progress
state ends with status "completed" (the unconditional
`finally complete_operation`), and no completion notification is
emitted. -/
theorem c2_cancellation_behavior (k : ℕ) (h1 : 1 ≤ k) (h4 : k ≤ 4)
    (files : List PyPath) (hf : files ≠ []) (cs : Bool) (out : String)
    (clock : ℕ → ℚ) (t0 : Tracker) :
    (processVideo ⟨some k, files, none, cs, out, clock⟩ t0).finished = [] ∧
    (processVideo ⟨some k, files, none, cs, out, clock⟩ t0).tracker.status = "completed" ∧
    (processVideo ⟨some k, files, none, cs, out, clock⟩ t0).tracker.current_step = k - 1 ∧
    "Processing stopped by user request" ∈
      (processVideo ⟨some k, files, none, cs, out, clock⟩ t0).tracker.warnings.map
        (fun w => w.message) := by
  have hfe : files.isEmpty = false := by
    cases files with
    | nil => exact absurd rfl hf
    | cons a l => rfl
  interval_cases k <;>
    simp [processVideo, envShouldStop, hfe, completeOperation_status,
      completeOperation_current_step, completeOperation_warnings,
      updateProgress_status, updateProgress_current_step, updateProgress_warnings,
      startTiming, initOp, addWarning]

/-- C2 (amended), witness at the concrete cancellation point 2. -/
theorem c2_cancellation_behavior_witness :
    (processVideo ⟨some 2, [⟨"", "img1.jpg", some 0⟩], none, true, "v.mp4",
        fun i => (i : ℚ)⟩ (mkTracker "w2")).finished = [] ∧
    (processVideo ⟨some 2, [⟨"", "img1.jpg", some 0⟩], none, true, "v.mp4",
        fun i => (i : ℚ)⟩ (mkTracker "w2")).tracker.status = "completed" ∧
    (processVideo ⟨some 2, [⟨"", "img1.jpg", some 0⟩], none, true, "v.mp4",
        fun i => (i : ℚ)⟩ (mkTracker "w2")).tracker.current_step = 2 - 1 ∧
    "Processing stopped by user request" ∈
      (processVideo ⟨some 2, [⟨"", "img1.jpg", some 0⟩], none, true, "v.mp4",
          fun i => (i : ℚ)⟩ (mkTracker "w2")).tracker.warnings.map (fun w => w.message) :=
  c2_cancellation_behavior 2 (by decide) (by decide) [⟨"", "img1.jpg", some 0⟩]
    (by decide) true "v.mp4" (fun i => (i : ℚ)) (mkTracker "w2")

/-! ## Claim C3 -/

/-- C3: the estimated time remaining is absent exactly when timing has not
started, the current step is 0, the total is 0, or the current step has
reached the total; otherwise it equals
`max 0 (elapsed * (total - step) / step)` with `elapsed` the time elapsed
since `start_timing` (as of the last update, or of now when no update has
happened); and any returned value is non-negative. -/
theorem c3_eta_formula (t : Tracker) (now : ℚ) :
    (getEstimatedTimeRemaining t now = none ↔
      t.start_time = none ∨ t.current_step = 0 ∨ t.total_steps = 0 ∨
        t.current_step ≥ t.total_steps) ∧
    (∀ s : ℚ, t.start_time = some s → 0 < t.current_step →
      t.current_step < t.total_steps →
      getEstimatedTimeRemaining t now
        = some (max 0 ((t.last_update_time.getD now - s) *
            ((t.total_steps : ℚ) - (t.current_step : ℚ)) / (t.current_step : ℚ)))) ∧
    (∀ v : ℚ, getEstimatedTimeRemaining t now = some v → 0 ≤ v) := by
  have habsent : getEstimatedTimeRemaining t now = none ↔
      t.start_time = none ∨ t.current_step = 0 ∨ t.total_steps = 0 ∨
        t.current_step ≥ t.total_steps := by
    unfold getEstimatedTimeRemaining
    cases hs : t.start_time with
    | none => simp
    | some s =>
      by_cases hc : t.current_step = 0 ∨ t.total_steps = 0 ∨ t.current_step ≥ t.total_steps
      · simp [hc]
      · have hc' := hc
        push_neg at hc'
        have hstep : (0:ℚ) < (t.current_step : ℚ) := by
          exact_mod_cast Nat.pos_of_ne_zero hc'.1
        have htot : (0:ℚ) < (t.total_steps : ℚ) := by
          exact_mod_cast Nat.pos_of_ne_zero hc'.2.1
        have hr : (0:ℚ) < (t.current_step : ℚ) / (t.total_steps : ℚ) :=
          div_pos hstep htot
        simp [hc, not_le.mpr hr, hc'.1, hc'.2.1]
  have hformula : ∀ s : ℚ, t.start_time = some s → 0 < t.current_step →
      t.current_step < t.total_steps →
      getEstimatedTimeRemaining t now
        = some (max 0 ((t.last_update_time.getD now - s) *
            ((t.total_steps : ℚ) - (t.current_step : ℚ)) / (t.current_step : ℚ))) := by
    intro s hsome hpos hlt
    have hne : ¬(t.current_step = 0 ∨ t.total_steps = 0 ∨
        t.current_step ≥ t.total_steps) := by omega
    have hstep : (0:ℚ) < (t.current_step : ℚ) := by exact_mod_cast hpos
    have htot : (0:ℚ) < (t.total_steps : ℚ) := by
      exact_mod_cast Nat.lt_of_lt_of_le hpos (Nat.le_of_lt hlt)
    have hr : (0:ℚ) < (t.current_step : ℚ) / (t.total_steps : ℚ) := div_pos hstep htot
    have harith :
        (t.last_update_time.getD now - s) / ((t.current_step : ℚ) / (t.total_steps : ℚ))
            - (t.last_update_time.getD now - s)
          = (t.last_update_time.getD now - s) *
              ((t.total_steps : ℚ) - (t.current_step : ℚ)) / (t.current_step : ℚ) := by
      field_simp
      ring
    unfold getEstimatedTimeRemaining
    simp only [hsome, if_neg hne, if_neg (not_le.mpr hr)]
    rw [harith]
  refine ⟨habsent, hformula, ?_⟩
  intro v hv
  cases hs : t.start_time with
  | none =>
    rw [habsent.mpr (Or.inl hs)] at hv
    exact absurd hv (by simp)
  | some s =>
    by_cases hc : t.current_step = 0 ∨ t.total_steps = 0 ∨ t.current_step ≥ t.total_steps
    · rw [habsent.mpr (Or.inr hc)] at hv
      exact absurd hv (by simp)
    · push_neg at hc
      rw [hformula s hs (Nat.pos_of_ne_zero hc.1) hc.2.2] at hv
      rw [Option.some.injEq] at hv
      rw [← hv]
      exact le_max_left 0 _

/-- C3, witness: the mid-run tracker (start 0, last update 6, step 2 of 5)
has a defined ETA given by the formula. -/
theorem c3_eta_formula_witness :
    getEstimatedTimeRemaining c3MidTracker 99
      = some (max 0 ((c3MidTracker.last_update_time.getD 99 - 0) *
          ((c3MidTracker.total_steps : ℚ) - (c3MidTracker.current_step : ℚ)) /
          (c3MidTracker.current_step : ℚ))) :=
  (c3_eta_formula c3MidTracker 99).2.1 0 rfl (by decide) (by decide)

/-! ## Claim C4 -/

/-- C4: natural sort returns a permutation of its input (nothing mutated or
dropped) ordered by the natural key — the lowercased filename split into
alternating digit/non-digit runs, digit runs compared as integers, other
runs as lowercase text, tuple-wise — and on the spec example
`["image10.jpg","image2.jpg","image1.jpg"]` it returns
`["image1.jpg","image2.jpg","image10.jpg"]`. -/
theorem c4_natural_sort (l : List PyPath) :
    (sortFilesNatural l).Perm l ∧
    List.Sorted naturalKeyLE (sortFilesNatural l) ∧
    sortFilesNatural c4ExampleInput
      = [⟨"", "image1.jpg", some 0⟩, ⟨"", "image2.jpg", some 0⟩,
         ⟨"", "image10.jpg", some 0⟩] :=
  ⟨List.perm_insertionSort naturalKeyLE l,
   List.sorted_insertionSort naturalKeyLE l,
   by decide⟩

/-! ## Claim C5 -/

/-- C5: with the backend available, `create_video` on a non-empty frame
list and an output extension outside {mp4, avi, mov, mkv} fails fast with
the descriptive "Unsupported output format" error and never reaches the
`mkdir` call (no I/O); on an empty frame list it fails with the
"No images provided for video creation" error, likewise before any
I/O. -/
theorem c5_create_video_fail_fast (frames : List PyPath) (out : PyPath) :
    (frames ≠ [] → isSupportedOutputFormat out = false →
      createVideoCheck true frames out
          = CreateVideoOutcome.failUnsupportedFormat (pySuffix out.name) ∧
      outcomeError (createVideoCheck true frames out)
          = some ("Unsupported output format: " ++ pySuffix out.name) ∧
      mkdirPerformed (createVideoCheck true frames out) = false) ∧
    (frames = [] →
      createVideoCheck true frames out = CreateVideoOutcome.failNoImages ∧
      outcomeError (createVideoCheck true frames out)
          = some "No images provided for video creation" ∧
      mkdirPerformed (createVideoCheck true frames out) = false) := by
  constructor
  · intro hne hfmt
    have hie : frames.isEmpty = false := by
      cases frames with
      | nil => exact absurd rfl hne
      | cons a l => rfl
    simp [createVideoCheck, hie, hfmt, outcomeError, mkdirPerformed]
  · intro he
    subst he
    simp [createVideoCheck, outcomeError, mkdirPerformed]

/-- C5, witness: one frame with a `.txt` output path, and the empty frame
list with a valid `.mp4` path. -/
theorem c5_create_video_fail_fast_witness :
    (createVideoCheck true c5Frames c5TxtPath
        = CreateVideoOutcome.failUnsupportedFormat (pySuffix c5TxtPath.name) ∧
     outcomeError (createVideoCheck true c5Frames c5TxtPath)
        = some ("Unsupported output format: " ++ pySuffix c5TxtPath.name) ∧
     mkdirPerformed (createVideoCheck true c5Frames c5TxtPath) = false) ∧
    (createVideoCheck true [] c5Mp4Path = CreateVideoOutcome.failNoImages ∧
     outcomeError (createVideoCheck true [] c5Mp4Path)
        = some "No images provided for video creation" ∧
     mkdirPerformed (createVideoCheck true [] c5Mp4Path) = false) :=
  ⟨(c5_create_video_fail_fast c5Frames c5TxtPath).1 (by decide) (by decide),
   (c5_create_video_fail_fast [] c5Mp4Path).2 rfl⟩

/-! ## Claim C6 -/

/-- C6, counterexample: when a modification time cannot be read, the
fallback sort is the raw case-sensitive filename order, not the claimed
case-insensitive one: on `[B.jpg (unreadable mtime), a.jpg]` the code
returns `[B.jpg, a.jpg]` while a case-insensitive compare orders
`[a.jpg, B.jpg]`. -/
theorem c6_fallback_case_counterexample :
    dateSortFellBack [c6FileB, c6FileA] = true ∧
    sortFilesByDate [c6FileB, c6FileA] = [c6FileB, c6FileA] ∧
    specFallbackAlphabeticalCI [c6FileB, c6FileA] = [c6FileA, c6FileB] ∧
    ([c6FileB, c6FileA] : List PyPath) ≠ [c6FileA, c6FileB] := by
  decide

/-- C6 (amended): sorting by modification time orders ascending by the
timestamp when every read succeeds; if any read fails, the whole sort
falls back — with a logged warning — to the raw, case-sensitive lexical
order on filename (not case-insensitive), never returning a partially
ordered result; either way the result is a permutation of the input. -/
theorem c6_date_sort (l : List PyPath) :
    (dateSortFellBack l = false →
      (sortFilesByDate l).Perm l ∧ List.Sorted mtimeLE (sortFilesByDate l)) ∧
    (dateSortFellBack l = true →
      (sortFilesByDate l).Perm l ∧ List.Sorted nameLE (sortFilesByDate l) ∧
      sortFilesByDate l = l.insertionSort nameLE) := by
  unfold sortFilesByDate dateSortFellBack
  cases h : l.all (fun p => p.mtime.isSome) with
  | true =>
    refine ⟨fun _ => ⟨List.perm_insertionSort mtimeLE l,
      List.sorted_insertionSort mtimeLE l⟩, fun hcontra => ?_⟩
    simp [h] at hcontra
  | false =>
    refine ⟨fun hcontra => ?_, fun _ => ⟨List.perm_insertionSort nameLE l,
      List.sorted_insertionSort nameLE l, rfl⟩⟩
    simp [h] at hcontra

/-- C6 (amended), witness: the readable-mtime side on `[a.jpg, B.jpg]` and
the fallback side on `[B.jpg (unreadable), a.jpg]`. -/
theorem c6_date_sort_witness :
    ((sortFilesByDate [c6FileA, c6FileA]).Perm [c6FileA, c6FileA] ∧
     List.Sorted mtimeLE (sortFilesByDate [c6FileA, c6FileA])) ∧
    ((sortFilesByDate [c6FileB, c6FileA]).Perm [c6FileB, c6FileA] ∧
     List.Sorted nameLE (sortFilesByDate [c6FileB, c6FileA]) ∧
     sortFilesByDate [c6FileB, c6FileA]
        = List.insertionSort nameLE [c6FileB, c6FileA]) :=
  ⟨(c6_date_sort [c6FileA, c6FileA]).1 (by decide),
   (c6_date_sort [c6FileB, c6FileA]).2 (by decide)⟩

/-! ## Claim C7 -/

/-- C7: `validate_settings` reports an error iff fps < 1, fps > 120, or
the quality preset is unknown; the result is valid exactly when there are
no errors; fps in [1,4] or [61,120] produces a warning while fatality
still depends only on the quality; and a codec outside the known set plus
"auto" produces only a warning — the errors do not depend on the codec at
all. -/
theorem c7_validate_settings (fps : ℤ) (quality codec : String) :
    ((validateSettings fps quality codec).errors ≠ [] ↔
        fps < 1 ∨ fps > 120 ∨ (QUALITY_PRESETS quality).isNone) ∧
    ((validateSettings fps quality codec).valid
        = (validateSettings fps quality codec).errors.isEmpty) ∧
    ((1 ≤ fps ∧ fps ≤ 4) ∨ (61 ≤ fps ∧ fps ≤ 120) →
      (validateSettings fps quality codec).warnings ≠ [] ∧
      ((validateSettings fps quality codec).errors ≠ [] ↔
          (QUALITY_PRESETS quality).isNone)) ∧
    (¬(codec ∈ getSupportedCodecs ∨ codec = "auto") →
      ("Codec " ++ codec ++ " may not be supported. Recommended: " ++
          "[libx264, libx265, mpeg4, libvpx, libvpx-vp9]")
        ∈ (validateSettings fps quality codec).warnings ∧
      (validateSettings fps quality codec).errors
        = (validateSettings fps quality "libx264").errors) := by
  refine ⟨?_, rfl, ?_, ?_⟩
  · unfold validateSettings
    by_cases hf : fps < 1 ∨ fps > 120 <;>
      cases hq : QUALITY_PRESETS quality <;>
        simp [hf, hq]
  · intro hr
    have hf : ¬(fps < 1 ∨ fps > 120) := by omega
    have hw : fps < 5 ∨ fps > 60 := by omega
    constructor
    · unfold validateSettings
      rcases hw with hw | hw
      · simp [hf, hw]
      · have hw5 : ¬ fps < 5 := by omega
        simp [hf, hw5, hw]
    · unfold validateSettings
      cases hq : QUALITY_PRESETS quality <;> simp [hf, hq]
  · intro hc
    push_neg at hc
    constructor
    · unfold validateSettings
      simp
      exact Or.inr hc
    · unfold validateSettings
      rfl

/-- C7, witness: fps 3 (low-fps warning range) with a known quality and an
unknown codec "h264". -/
theorem c7_validate_settings_witness :
    ((validateSettings 3 "medium" "h264").warnings ≠ [] ∧
     ((validateSettings 3 "medium" "h264").errors ≠ [] ↔
        (QUALITY_PRESETS "medium").isNone)) ∧
    (("Codec " ++ "h264" ++ " may not be supported. Recommended: " ++
        "[libx264, libx265, mpeg4, libvpx, libvpx-vp9]")
      ∈ (validateSettings 3 "medium" "h264").warnings ∧
     (validateSettings 3 "medium" "h264").errors
        = (validateSettings 3 "medium" "libx264").errors) :=
  ⟨(c7_validate_settings 3 "medium" "h264").2.2.1 (Or.inl (by decide)),
   (c7_validate_settings 3 "medium" "h264").2.2.2 (by decide)⟩

/-! ## Claim C8 -/

/-- C8, counterexample: with exactly 5 file-access-related messages the
report does NOT include the input-path/permissions recommendation (the
code requires strictly more than 5), and with exactly 3 image-processing
errors it does NOT include the file-integrity recommendation (the code
requires strictly more than 3). -/
theorem c8_threshold_counterexample :
    countFileRelated c8FiveFileErrors = 5 ∧
    recFileAccess ∉ genRecommendations c8FiveFileErrors ∧
    countOfType "ImageProcessingError" c8ThreeImageErrors = 3 ∧
    recImageIntegrity ∉ genRecommendations c8ThreeImageErrors := by
  decide

/-- C8 (amended): the input-path/permissions recommendation appears exactly
when MORE THAN 5 recorded messages are file-access related, the
elevated-privileges recommendation exactly when at least one message
mentions a permission problem, and the file-integrity recommendation
exactly when MORE THAN 3 image-processing errors are present. -/
theorem c8_recommendation_thresholds (errs : List LoggerErrorInfo) :
    (recFileAccess ∈ genRecommendations errs ↔ 5 < countFileRelated errs) ∧
    (recPermission ∈ genRecommendations errs ↔ 0 < countMsgWith "permission" errs) ∧
    (recImageIntegrity ∈ genRecommendations errs ↔
        3 < countOfType "ImageProcessingError" errs) := by
  by_cases he : errs = []
  · subst he
    simp [genRecommendations, countFileRelated, countMsgWith, countOfType]
  · have hie : errs.isEmpty = false := by
      cases errs with
      | nil => exact absurd rfl he
      | cons a l => rfl
    unfold genRecommendations
    rw [hie]
    simp only [Bool.false_eq_true, if_false, List.mem_append]
    refine ⟨?_, ?_, ?_⟩ <;>
      split_ifs <;> simp_all [recFileAccess, recPermission, recDiskSpace,
        recImageIntegrity, recVideoEncoding, recRestart]

/-! ## Claim C9 -/

/-- C9: loading a saved tracker state restores every persisted field
verbatim — id, totals, current step, name, timestamps, status, message,
step timings, metrics, errors, warnings — while the loaded tracker has no
callback registrations. -/
theorem c9_save_load_roundtrip (t tOld : Tracker) (saved_at : ℚ) :
    (loadState (saveState t saved_at) tOld).operation_id = t.operation_id ∧
    (loadState (saveState t saved_at) tOld).total_steps = t.total_steps ∧
    (loadState (saveState t saved_at) tOld).current_step = t.current_step ∧
    (loadState (saveState t saved_at) tOld).operation_name = t.operation_name ∧
    (loadState (saveState t saved_at) tOld).start_time = t.start_time ∧
    (loadState (saveState t saved_at) tOld).end_time = t.end_time ∧
    (loadState (saveState t saved_at) tOld).last_update_time = t.last_update_time ∧
    (loadState (saveState t saved_at) tOld).status = t.status ∧
    (loadState (saveState t saved_at) tOld).current_message = t.current_message ∧
    (loadState (saveState t saved_at) tOld).step_timings = t.step_timings ∧
    (loadState (saveState t saved_at) tOld).performance_metrics = t.performance_metrics ∧
    (loadState (saveState t saved_at) tOld).errors = t.errors ∧
    (loadState (saveState t saved_at) tOld).warnings = t.warnings ∧
    (loadState (saveState t saved_at) tOld).callbacks = [] :=
  ⟨rfl, rfl, rfl, rfl, rfl, rfl, rfl, rfl, rfl, rfl, rfl, rfl, rfl, rfl⟩

/-! ## Claim C10 -/

/-- C10: for a quality string outside {low, medium, high},
`get_quality_settings` silently falls back to the medium preset, so
`estimate_output_size` succeeds using the medium bitrate of 5000 kbps
while echoing the caller's unrecognized quality label — even though
`validate_settings` classes the same quality as an error. -/
theorem c10_unknown_quality_uses_medium (files : List PyPath) (fps : ℕ)
    (quality codec : String) (hq : QUALITY_PRESETS quality = none)
    (hf : files ≠ []) :
    getQualitySettings quality = ⟨"5000k", "libx264"⟩ ∧
    estimateOutputSize files fps quality
      = SizeEstimateResult.ok
          ⟨(((5000:ℚ) * 1000 * ((files.length : ℚ) / (fps : ℚ))) / 8) / (1024 * 1024),
           ((5000:ℚ) * 1000 * ((files.length : ℚ) / (fps : ℚ))) / 8,
           (files.length : ℚ) / (fps : ℚ), fps, files.length, quality, 5000⟩ ∧
    (validateSettings (fps : ℤ) quality codec).valid = false := by
  have hmed : getQualitySettings quality = ⟨"5000k", "libx264"⟩ := by
    unfold getQualitySettings
    rw [hq]
    rfl
  have hie : files.isEmpty = false := by
    cases files with
    | nil => exact absurd rfl hf
    | cons a l => rfl
  have hkbps : bitrateToKbps "5000k" = 5000 := by decide
  refine ⟨hmed, ?_, ?_⟩
  · unfold estimateOutputSize
    rw [hie]
    simp only [Bool.false_eq_true, if_false, hmed, hkbps]
    norm_cast
  · unfold validateSettings
    simp [hq]

/-- C10, witness: one file at 15 fps with the unknown quality "ultra". -/
theorem c10_unknown_quality_uses_medium_witness :
    getQualitySettings "ultra" = ⟨"5000k", "libx264"⟩ ∧
    estimateOutputSize [⟨"in", "a.jpg", some 0⟩] 15 "ultra"
      = SizeEstimateResult.ok
          ⟨(((5000:ℚ) * 1000 * ((([⟨"in", "a.jpg", some 0⟩] : List PyPath).length : ℚ) / (15 : ℚ))) / 8) / (1024 * 1024),
           ((5000:ℚ) * 1000 * ((([⟨"in", "a.jpg", some 0⟩] : List PyPath).length : ℚ) / (15 : ℚ))) / 8,
           (([⟨"in", "a.jpg", some 0⟩] : List PyPath).length : ℚ) / (15 : ℚ),
           15, ([⟨"in", "a.jpg", some 0⟩] : List PyPath).length, "ultra", 5000⟩ ∧
    (validateSettings ((15 : ℕ) : ℤ) "ultra" "auto").valid = false :=
  c10_unknown_quality_uses_medium [⟨"in", "a.jpg", some 0⟩] 15 "ultra" "auto" rfl (by decide)
